import Mathlib

/-!
Shallow embedding of the Currency Rate Analyst service (src/main.py) and
verification of its streaming/blocking event-emission behaviour.

The opaque agent producer (the claude_agent_sdk `query` async iterator) is
modelled as a `Producer`: the finite list of messages it successfully yields,
in order, followed either by normal exhaustion (`failure = none`) or by an
exception whose textual description is `failure = some e`.  Timestamps
(`datetime.datetime.now().isoformat()` in `create_event`) are wall-clock
values with no influence on any other field and are omitted from the
embedding.  Python dicts of fixed shape are modelled as Lean structures; the
empty usage dict `{}` produced by `usage_info or {}` is modelled as `none`.
-/

namespace CurrencyAgent

/-- The four fields stashed from a `ResultMessage` (src/main.py lines 154-159
and 224-229).  `total_cost_usd` is a Python float used only by pass-through;
it is modelled as a rational. -/
structure Usage where
  duration_ms : Int
  total_cost_usd : Rat
  num_turns : Int
  session_id : String
deriving DecidableEq, Repr

/-- The static persona metadata dict built from AGENT_CONFIG (lines 170-173
and 238-241). -/
structure AgentInfo where
  name : String
  role : String
deriving DecidableEq, Repr

/-- AGENT_CONFIG["name"] (line 43). -/
def AGENT_NAME : String := "Currency Rate Analyst"

/-- AGENT_CONFIG["role"] (line 44). -/
def AGENT_ROLE : String := "Financial Data Analyst specializing in currency conversion rates"

/-- The `agent_info` payload used by both handlers. -/
def agentInfo : AgentInfo := ⟨AGENT_NAME, AGENT_ROLE⟩

/-- Content blocks of an AssistantMessage: TextBlock, ToolUseBlock,
ToolResultBlock, or any other block kind (all non-Text, non-ToolUse kinds
are skipped by both loops).  A ToolUse input mapping is carried opaquely as
an association list. -/
inductive ContentBlock where
  | textBlock (text : String)
  | toolUseBlock (name : String) (input : List (String × String))
  | toolResultBlock
  | unknownBlock
deriving DecidableEq, Repr

/-- One element of the producer sequence: an AssistantMessage with its
content blocks, a ResultMessage with its four consumed fields, or any other
SDK message variant (matched by neither isinstance branch, hence ignored). -/
inductive AgentMessage where
  | assistant (content : List ContentBlock)
  | result (duration_ms : Int) (total_cost_usd : Rat) (num_turns : Int) (session_id : String)
  | otherMessage
deriving DecidableEq, Repr

/-- The opaque async producer `query(prompt=..., options=...)`: it yields
`msgs` in order; after the last one, advancing it once more either ends the
iteration normally (`failure = none`) or raises an exception whose `str` is
`e` (`failure = some e`).  A failure on the very first advance is
`msgs = []`. -/
structure Producer where
  msgs : List AgentMessage
  failure : Option String
deriving DecidableEq, Repr

/-- Payload (`data` dict) of one StreamEvent, one constructor per event
type, with the exact fields built at each `create_event` call site.
`inProgressFlag` is the boolean data key called "partial" in the source,
always true for response events. -/
inductive StreamData where
  | progress (message : String) (agent : Option String) (status : String)
  | response (content : String) (inProgressFlag : Bool) (message : String)
  | tool_use (tool : String) (input : List (String × String)) (message : String) (status : String)
  | complete (response : String) (usage : Option Usage) (status : String) (message : String) (agent_info : AgentInfo)
  | error (error : String) (message : String) (status : String)
deriving DecidableEq, Repr

/-- One serialized frame: the `type` string and `data` dict passed to
`create_event` (timestamp omitted, see the file header). -/
structure StreamEvent where
  type : String
  data : StreamData
deriving DecidableEq, Repr

/-- The first progress event (lines 111-115). -/
def startingEvent : StreamEvent :=
  ⟨"progress", .progress "🤖 Starting Currency Rate Analyst..." (some AGENT_NAME) "initializing"⟩

/-- The second progress event (lines 125-128). -/
def processingEvent : StreamEvent :=
  ⟨"progress", .progress "📋 Processing your request..." none "processing"⟩

/-- The partial-response event yielded for a TextBlock (lines 140-144). -/
def respEvent (text : String) : StreamEvent :=
  ⟨"response", .response text true "💭 Agent thinking..."⟩

/-- The tool_use event yielded for a ToolUseBlock (lines 147-152). -/
def toolEvent (name : String) (input : List (String × String)) : StreamEvent :=
  ⟨"tool_use", .tool_use name input ("🔧 Using " ++ name ++ " tool...") "executing"⟩

/-- `"\n".join(response_parts) if response_parts else "No response received"`
(lines 162 and 232). -/
def joinResponse (parts : List String) : String :=
  if parts.isEmpty then "No response received" else String.intercalate "\n" parts

/-- The completion event (lines 165-174): joined response, `usage_info or {}`
(`none` models the empty dict), status, message, agent_info. -/
def completeEvent (parts : List String) (usage : Option Usage) : StreamEvent :=
  ⟨"complete", .complete (joinResponse parts) usage "completed" "✅ Task completed successfully!" agentInfo⟩

/-- The error event (lines 177-181): `str(e)` verbatim plus a prefixed
message. -/
def errorEvent (e : String) : StreamEvent :=
  ⟨"error", .error e ("❌ Error: " ++ e) "failed"⟩

/-- The inner `for block in message.content` loop of the streaming handler
(lines 136-152): emits events in block order and appends each TextBlock text
to `response_parts`.  Returns (yielded events, updated response_parts). -/
def streamBlocks : List ContentBlock → List String → List StreamEvent × List String
  | [], parts => ([], parts)
  | .textBlock t :: bs, parts =>
      let rest := streamBlocks bs (parts ++ [t])
      (respEvent t :: rest.1, rest.2)
  | .toolUseBlock n i :: bs, parts =>
      let rest := streamBlocks bs parts
      (toolEvent n i :: rest.1, rest.2)
  | .toolResultBlock :: bs, parts => streamBlocks bs parts
  | .unknownBlock :: bs, parts => streamBlocks bs parts

/-- The `async for message in query(...)` loop of the streaming handler
(lines 134-160) applied to the messages the producer delivers.  Returns
(yielded events, response_parts, usage_info, whether `break` was executed).
A ResultMessage stores its four fields in usage_info and breaks; messages of
other variants fall through both isinstance checks. -/
def streamLoop : List AgentMessage → List String → Option Usage →
    List StreamEvent × List String × Option Usage × Bool
  | [], parts, usage => ([], parts, usage, false)
  | .assistant bs :: ms, parts, usage =>
      let blk := streamBlocks bs parts
      let rest := streamLoop ms blk.2 usage
      (blk.1 ++ rest.1, rest.2)
  | .result d c n s :: _, parts, _ => ([], parts, some ⟨d, c, n, s⟩, true)
  | .otherMessage :: ms, parts, usage => streamLoop ms parts usage

/-- The streaming generator `stream_agent_progress` (lines 97-181): two
unconditional progress events, then the message loop; if `break` fired the
producer is never advanced again and the complete event follows; otherwise
the next advance either ends the iteration (complete event) or raises
(the except-branch yields one error event and the generator returns). -/
def stream_agent_progress (p : Producer) : List StreamEvent :=
  match streamLoop p.msgs [] none with
  | (events, parts, usage, broke) =>
      [startingEvent, processingEvent] ++ events ++
        (if broke then [completeEvent parts usage]
         else
           match p.failure with
           | none => [completeEvent parts usage]
           | some e => [errorEvent e])

/-- The request body model QueryRequest (lines 26-28): a prompt string and
max_turns defaulting to 20.  No constraint beyond field types. -/
structure QueryRequest where
  prompt : String
  max_turns : Int
deriving DecidableEq, Repr

/-- The success body QueryResponse (lines 30-34, 234-242); `usage = none`
models the empty dict `{}`. -/
structure QueryResponse where
  status : String
  response : String
  usage : Option Usage
  agent_info : AgentInfo
deriving DecidableEq, Repr

/-- Outcome of the blocking handler: a 200 success body, or the
HTTPException raised at line 245 carrying a status code and detail string. -/
inductive QueryOutcome where
  | success (body : QueryResponse)
  | httpError (status_code : Nat) (detail : String)
deriving DecidableEq, Repr

/-- The texts collected by the blocking handler from one AssistantMessage's
content (lines 220-222): the `block.text` of each TextBlock, in order. -/
def blockTexts : List ContentBlock → List String
  | [] => []
  | .textBlock t :: bs => t :: blockTexts bs
  | .toolUseBlock _ _ :: bs => blockTexts bs
  | .toolResultBlock :: bs => blockTexts bs
  | .unknownBlock :: bs => blockTexts bs

/-- The `async for` loop of the blocking handler (lines 218-230): same fold
as the streaming loop but yielding nothing.  Returns (response_parts,
usage_info, whether `break` was executed). -/
def queryLoop : List AgentMessage → List String → Option Usage →
    List String × Option Usage × Bool
  | [], parts, usage => (parts, usage, false)
  | .assistant bs :: ms, parts, usage => queryLoop ms (parts ++ blockTexts bs) usage
  | .result d c n s :: _, parts, _ => (parts, some ⟨d, c, n, s⟩, true)
  | .otherMessage :: ms, parts, usage => queryLoop ms parts usage

/-- The blocking handler `query_agent` (lines 200-245).  The request only
configures the opaque producer (prompt and max_turns are passed into
`query(...)`, which `p` already models), so it does not appear in the fold.
On an exception the except-branch raises HTTPException(500,
"Agent execution failed: " + str(e)). -/
def query_agent (_req : QueryRequest) (p : Producer) : QueryOutcome :=
  match queryLoop p.msgs [] none with
  | (parts, usage, broke) =>
      if broke then .success ⟨"success", joinResponse parts, usage, agentInfo⟩
      else
        match p.failure with
        | none => .success ⟨"success", joinResponse parts, usage, agentInfo⟩
        | some e => .httpError 500 ("Agent execution failed: " ++ e)

/-- Pydantic validation of a request body against QueryRequest (lines
26-28): `prompt` is required with no further constraint; `max_turns` is
optional with default 20; no validator rejects an empty prompt or a
non-positive max_turns.  `none` is the 422 validation failure. -/
def parseQueryRequest (prompt : Option String) (max_turns : Option Int) : Option QueryRequest :=
  match prompt with
  | none => none
  | some s => some ⟨s, max_turns.getD 20⟩

/-- Result of an endpoint call: FastAPI validation failure (producer never
invoked) or the handler's value. -/
inductive EndpointResult (α : Type) where
  | validationFailed (status_code : Nat)
  | ok (a : α)
deriving DecidableEq, Repr

/-- The POST /query endpoint (lines 200-245): validate the body, then run
the blocking handler against the producer. -/
def post_query (prompt : Option String) (max_turns : Option Int) (p : Producer) :
    EndpointResult QueryOutcome :=
  match parseQueryRequest prompt max_turns with
  | none => .validationFailed 422
  | some req => .ok (query_agent req p)

/-- The POST /stream endpoint (lines 183-198): validate the body, then
return the streamed frames of `stream_agent_progress`. -/
def post_stream (prompt : Option String) (max_turns : Option Int) (p : Producer) :
    EndpointResult (List StreamEvent) :=
  match parseQueryRequest prompt max_turns with
  | none => .validationFailed 422
  | some _req => .ok (stream_agent_progress p)

/-! Spec-side helper functions, used only to state and prove properties of
the embedded handlers. -/

/-- Whether a message is a ResultMessage. -/
def isResult : AgentMessage → Bool
  | .result _ _ _ _ => true
  | _ => false

/-- The usage dict built from the first ResultMessage of a list, if any. -/
def firstUsage : List AgentMessage → Option Usage
  | [] => none
  | .result d c n s :: _ => some ⟨d, c, n, s⟩
  | .assistant _ :: ms => firstUsage ms
  | .otherMessage :: ms => firstUsage ms

/-- Text contents contributed by one message. -/
def msgTexts : AgentMessage → List String
  | .assistant bs => blockTexts bs
  | _ => []

/-- Text contents of all TextBlocks strictly before the first ResultMessage,
in arrival order. -/
def textsBeforeResult : List AgentMessage → List String
  | [] => []
  | .result _ _ _ _ :: _ => []
  | m :: ms => msgTexts m ++ textsBeforeResult ms

/-- Events the classifier yields for one AssistantMessage's content blocks. -/
def blockEvents : List ContentBlock → List StreamEvent
  | [] => []
  | .textBlock t :: bs => respEvent t :: blockEvents bs
  | .toolUseBlock n i :: bs => toolEvent n i :: blockEvents bs
  | .toolResultBlock :: bs => blockEvents bs
  | .unknownBlock :: bs => blockEvents bs

/-- Events yielded for the messages strictly before the first ResultMessage. -/
def eventsBeforeResult : List AgentMessage → List StreamEvent
  | [] => []
  | .result _ _ _ _ :: _ => []
  | .assistant bs :: ms => blockEvents bs ++ eventsBeforeResult ms
  | .otherMessage :: ms => eventsBeforeResult ms

/-- The `response` field of a complete event's data, when the event is one. -/
def eventResponse : StreamEvent → Option String
  | ⟨_, .complete r _ _ _ _⟩ => some r
  | _ => none

/-- The `usage` field of a complete event's data, when the event is one
(`some none` is a complete event carrying the empty usage dict). -/
def eventUsage : StreamEvent → Option (Option Usage)
  | ⟨_, .complete _ u _ _ _⟩ => some u
  | _ => none

/-- The `error` field of an error event's data, when the event is one. -/
def eventErrorText : StreamEvent → Option String
  | ⟨_, .error e _ _⟩ => some e
  | _ => none

/-- Number of events of a given type string in a frame list. -/
def countType (t : String) (es : List StreamEvent) : Nat :=
  (es.filter fun e => e.type == t).length

/-- Whether every block of a list is a TextBlock. -/
def onlyTextBlocks : List ContentBlock → Bool
  | [] => true
  | .textBlock _ :: bs => onlyTextBlocks bs
  | _ :: _ => false

/-- Whether a message is an AssistantMessage all of whose blocks are
TextBlocks. -/
def onlyTextAssistant : AgentMessage → Bool
  | .assistant bs => onlyTextBlocks bs
  | _ => false

/-! Structural lemmas about the two loops. -/

theorem streamBlocks_eq (bs : List ContentBlock) (parts : List String) :
    streamBlocks bs parts = (blockEvents bs, parts ++ blockTexts bs) := by
  induction bs generalizing parts with
  | nil => simp [streamBlocks, blockEvents, blockTexts]
  | cons b bs ih =>
      cases b <;>
        simp [streamBlocks, blockEvents, blockTexts, ih]

theorem streamLoop_eq (ms : List AgentMessage) (parts : List String) (usage : Option Usage) :
    streamLoop ms parts usage =
      (eventsBeforeResult ms, parts ++ textsBeforeResult ms,
        (match firstUsage ms with | some u => some u | none => usage),
        ms.any isResult) := by
  induction ms generalizing parts usage with
  | nil => simp [streamLoop, eventsBeforeResult, textsBeforeResult, firstUsage]
  | cons m ms ih =>
      cases m with
      | assistant bs =>
          simp [streamLoop, streamBlocks_eq, eventsBeforeResult, textsBeforeResult,
            firstUsage, msgTexts, ih, isResult]
      | result d c n s =>
          simp [streamLoop, eventsBeforeResult, textsBeforeResult, firstUsage, isResult]
      | otherMessage =>
          simp [streamLoop, eventsBeforeResult, textsBeforeResult, firstUsage,
            msgTexts, ih, isResult]

theorem queryLoop_eq (ms : List AgentMessage) (parts : List String) (usage : Option Usage) :
    queryLoop ms parts usage =
      (parts ++ textsBeforeResult ms,
        (match firstUsage ms with | some u => some u | none => usage),
        ms.any isResult) := by
  induction ms generalizing parts usage with
  | nil => simp [queryLoop, textsBeforeResult, firstUsage]
  | cons m ms ih =>
      cases m with
      | assistant bs =>
          simp [queryLoop, textsBeforeResult, firstUsage, msgTexts, ih, isResult]
      | result d c n s =>
          simp [queryLoop, textsBeforeResult, firstUsage, isResult]
      | otherMessage =>
          simp [queryLoop, textsBeforeResult, firstUsage, msgTexts, ih, isResult]

theorem streamLoop_none (ms : List AgentMessage) :
    streamLoop ms [] none =
      (eventsBeforeResult ms, textsBeforeResult ms, firstUsage ms, ms.any isResult) := by
  rw [streamLoop_eq]
  cases firstUsage ms <;> simp

theorem queryLoop_none (ms : List AgentMessage) :
    queryLoop ms [] none =
      (textsBeforeResult ms, firstUsage ms, ms.any isResult) := by
  rw [queryLoop_eq]
  cases firstUsage ms <;> simp

/-- The terminal frame(s) of a stream: a single complete event when a
ResultMessage broke the loop or the sequence ended normally, a single error
event when the producer raised. -/
def terminalFrames (p : Producer) : List StreamEvent :=
  if p.msgs.any isResult then
    [completeEvent (textsBeforeResult p.msgs) (firstUsage p.msgs)]
  else
    match p.failure with
    | none => [completeEvent (textsBeforeResult p.msgs) (firstUsage p.msgs)]
    | some e => [errorEvent e]

/-- Closed form of the streaming generator. -/
theorem stream_agent_progress_eq (p : Producer) :
    stream_agent_progress p =
      [startingEvent, processingEvent] ++ eventsBeforeResult p.msgs ++ terminalFrames p := by
  unfold stream_agent_progress terminalFrames
  rw [streamLoop_none]

/-- Closed form of the blocking handler. -/
theorem query_agent_eq (req : QueryRequest) (p : Producer) :
    query_agent req p =
      (if p.msgs.any isResult then
        .success ⟨"success", joinResponse (textsBeforeResult p.msgs), firstUsage p.msgs, agentInfo⟩
       else
        match p.failure with
        | none =>
            .success ⟨"success", joinResponse (textsBeforeResult p.msgs), firstUsage p.msgs, agentInfo⟩
        | some e => .httpError 500 ("Agent execution failed: " ++ e)) := by
  unfold query_agent
  rw [queryLoop_none]

/-- When the message list holds no ResultMessage, no usage is ever stashed. -/
theorem firstUsage_eq_none (ms : List AgentMessage) (h : ms.any isResult = false) :
    firstUsage ms = none := by
  induction ms with
  | nil => rfl
  | cons m ms ih =>
      rw [List.any_cons, Bool.or_eq_false_iff] at h
      cases m with
      | assistant bs => exact ih h.2
      | result d c n s => simp [isResult] at h
      | otherMessage => exact ih h.2

theorem blockEvents_type (bs : List ContentBlock) :
    ∀ e ∈ blockEvents bs, e.type = "response" ∨ e.type = "tool_use" := by
  induction bs with
  | nil => simp [blockEvents]
  | cons b bs ih =>
      cases b <;> simp [blockEvents, respEvent, toolEvent] <;> exact ih

theorem eventsBeforeResult_type (ms : List AgentMessage) :
    ∀ e ∈ eventsBeforeResult ms, e.type = "response" ∨ e.type = "tool_use" := by
  induction ms with
  | nil => simp [eventsBeforeResult]
  | cons m ms ih =>
      cases m with
      | assistant bs =>
          intro e he
          rw [eventsBeforeResult, List.mem_append] at he
          rcases he with h | h
          · exact blockEvents_type bs e h
          · exact ih e h
      | result d c n s => simp [eventsBeforeResult]
      | otherMessage => exact ih

theorem countType_eq_zero (t : String) (es : List StreamEvent)
    (h : ∀ e ∈ es, e.type ≠ t) : countType t es = 0 := by
  unfold countType
  rw [List.length_eq_zero, List.filter_eq_nil_iff]
  intro e he
  simpa using h e he

theorem countType_append (t : String) (es fs : List StreamEvent) :
    countType t (es ++ fs) = countType t es + countType t fs := by
  unfold countType
  rw [List.filter_append, List.length_append]

/-- Appending past a result-free prefix concatenates the collected texts. -/
theorem textsBeforeResult_append (ms ns : List AgentMessage)
    (h : ms.any isResult = false) :
    textsBeforeResult (ms ++ ns) = textsBeforeResult ms ++ textsBeforeResult ns := by
  induction ms with
  | nil => simp [textsBeforeResult]
  | cons m ms ih =>
      rw [List.any_cons, Bool.or_eq_false_iff] at h
      cases m with
      | assistant bs => simp [textsBeforeResult, ih h.2]
      | result d c n s => simp [isResult] at h
      | otherMessage => simp [textsBeforeResult, ih h.2, msgTexts]

theorem eventsBeforeResult_append (ms ns : List AgentMessage)
    (h : ms.any isResult = false) :
    eventsBeforeResult (ms ++ ns) = eventsBeforeResult ms ++ eventsBeforeResult ns := by
  induction ms with
  | nil => simp [eventsBeforeResult]
  | cons m ms ih =>
      rw [List.any_cons, Bool.or_eq_false_iff] at h
      cases m with
      | assistant bs => simp [eventsBeforeResult, ih h.2]
      | result d c n s => simp [isResult] at h
      | otherMessage => simp [eventsBeforeResult, ih h.2]

theorem firstUsage_append (ms ns : List AgentMessage)
    (h : ms.any isResult = false) :
    firstUsage (ms ++ ns) = firstUsage ns := by
  induction ms with
  | nil => simp
  | cons m ms ih =>
      rw [List.any_cons, Bool.or_eq_false_iff] at h
      cases m with
      | assistant bs => simpa [firstUsage] using ih h.2
      | result d c n s => simp [isResult] at h
      | otherMessage => simpa [firstUsage] using ih h.2

theorem any_isResult_append (ms ns : List AgentMessage) :
    (ms ++ ns).any isResult = (ms.any isResult || ns.any isResult) := by
  exact List.any_append

/-- A list of all-Text AssistantMessages contains no ResultMessage, its
events are exactly one response event per text, in order. -/
theorem onlyText_events (ms : List AgentMessage)
    (h : ms.all onlyTextAssistant = true) :
    ms.any isResult = false ∧
      eventsBeforeResult ms = (textsBeforeResult ms).map respEvent := by
  induction ms with
  | nil => simp [eventsBeforeResult, textsBeforeResult]
  | cons m ms ih =>
      rw [List.all_cons, Bool.and_eq_true] at h
      cases m with
      | assistant bs =>
          have hb : blockEvents bs = (blockTexts bs).map respEvent := by
            have hbs : onlyTextBlocks bs = true := h.1
            clear h
            induction bs with
            | nil => simp [blockEvents, blockTexts]
            | cons b bs ihb =>
                cases b with
                | textBlock t =>
                    rw [onlyTextBlocks] at hbs
                    simp [blockEvents, blockTexts, ihb hbs]
                | toolUseBlock n i => simp [onlyTextBlocks] at hbs
                | toolResultBlock => simp [onlyTextBlocks] at hbs
                | unknownBlock => simp [onlyTextBlocks] at hbs
          have := ih h.2
          simp [eventsBeforeResult, textsBeforeResult, msgTexts, isResult, hb,
            this.1, this.2]
      | result d c n s => simp [onlyTextAssistant] at h
      | otherMessage =>
          have := ih h.2
          simp [eventsBeforeResult, textsBeforeResult, msgTexts, isResult,
            this.1, this.2]

/-- The `response` field of the blocking success body, when the outcome is a
success. -/
def queryResponseOf : QueryOutcome → Option String
  | .success b => some b.response
  | .httpError _ _ => none

/-- The `usage` field of the blocking success body, when the outcome is a
success (`some none` is a success carrying the empty usage dict). -/
def queryUsageOf : QueryOutcome → Option (Option Usage)
  | .success b => some b.usage
  | .httpError _ _ => none

/-- Whether the blocking outcome is an HTTPException. -/
def isHttpError : QueryOutcome → Bool
  | .httpError _ _ => true
  | .success _ => false

/-- Whether an endpoint call was rejected by request-body validation. -/
def isValidationFailed {α : Type} : EndpointResult α → Bool
  | .validationFailed _ => true
  | .ok _ => false

/-- A producer run the handlers treat as non-failing: it either ends
normally or yields a ResultMessage before its failure point, so the loop
breaks first. -/
def nonFailing (p : Producer) : Prop :=
  p.failure = none ∨ p.msgs.any isResult = true

instance (p : Producer) : Decidable (nonFailing p) := by
  unfold nonFailing
  infer_instance

theorem joinResponse_of_ne_nil (parts : List String) (h : parts ≠ []) :
    joinResponse parts = String.intercalate "\n" parts := by
  cases parts with
  | nil => exact absurd rfl h
  | cons a as => simp [joinResponse]

theorem textsBeforeResult_eq_nil (ms : List AgentMessage)
    (h : ms.all (fun m => (msgTexts m).isEmpty) = true) :
    textsBeforeResult ms = [] := by
  induction ms with
  | nil => rfl
  | cons m ms ih =>
      rw [List.all_cons, Bool.and_eq_true] at h
      cases m with
      | assistant bs =>
          have h1 : msgTexts (.assistant bs) = [] := by
            simpa [List.isEmpty_iff] using h.1
          simp [textsBeforeResult, h1, ih h.2]
      | result d c n s => rfl
      | otherMessage => simp [textsBeforeResult, msgTexts, ih h.2]

/-! Claim theorems. -/

/-- Claim C8: for every request and every producer behaviour, including one
failing on its first advance, the streamed output begins with exactly the
two startup `progress` frames, which do not depend on the producer at all
(they precede its first advance). -/
theorem c8_startup_progress_frames (p : Producer) :
    (stream_agent_progress p).take 2 = [startingEvent, processingEvent] ∧
      startingEvent.type = "progress" ∧ processingEvent.type = "progress" := by
  rw [stream_agent_progress_eq]
  exact ⟨rfl, rfl, rfl⟩

/-- Claim C3: for every producer sequence, the streamed event sequence is a
prefix of non-terminal events followed by exactly one terminal event of type
`complete` or `error`, with nothing after it. -/
theorem c3_single_terminal_event (p : Producer) :
    ∃ pre e, stream_agent_progress p = pre ++ [e] ∧
      (e.type = "complete" ∨ e.type = "error") ∧
      ∀ x ∈ pre, x.type ≠ "complete" ∧ x.type ≠ "error" := by
  rw [stream_agent_progress_eq]
  have hterm : ∃ e, terminalFrames p = [e] ∧ (e.type = "complete" ∨ e.type = "error") := by
    unfold terminalFrames
    by_cases h : p.msgs.any isResult = true
    · rw [if_pos h]
      exact ⟨_, rfl, Or.inl rfl⟩
    · rw [if_neg h]
      cases p.failure with
      | none => exact ⟨_, rfl, Or.inl rfl⟩
      | some e => exact ⟨_, rfl, Or.inr rfl⟩
  obtain ⟨e, he, ht⟩ := hterm
  refine ⟨[startingEvent, processingEvent] ++ eventsBeforeResult p.msgs, e, ?_, ht, ?_⟩
  · rw [he, List.append_assoc]
  · intro x hx
    rw [List.mem_append] at hx
    rcases hx with hx | hx
    · simp only [List.mem_cons, List.not_mem_nil, or_false] at hx
      rcases hx with hx | hx <;> subst hx <;> exact ⟨by decide, by decide⟩
    · rcases eventsBeforeResult_type p.msgs x hx with h | h <;>
        rw [h] <;> exact ⟨by decide, by decide⟩

theorem countType_nonterminal_zero (es : List StreamEvent)
    (h : ∀ e ∈ es, e.type = "response" ∨ e.type = "tool_use") :
    countType "complete" es = 0 ∧ countType "error" es = 0 := by
  constructor <;>
    refine countType_eq_zero _ _ (fun e he => ?_) <;>
      rcases h e he with h1 | h1 <;> rw [h1] <;> decide

/-- Claim C2: when the producer sequence raises after delivering a
result-free prefix, the stream is exactly the two startup frames, the
events classified from the delivered prefix (already emitted, unretracted),
and one final error frame; it holds one `error` event and zero `complete`
events, and blocking mode raises exactly one 500 HTTPException. -/
theorem c2_failure_single_error (ms : List AgentMessage) (m : String)
    (req : QueryRequest) (h : ms.any isResult = false) :
    stream_agent_progress ⟨ms, some m⟩ =
      [startingEvent, processingEvent] ++ eventsBeforeResult ms ++ [errorEvent m] ∧
    countType "error" (stream_agent_progress ⟨ms, some m⟩) = 1 ∧
    countType "complete" (stream_agent_progress ⟨ms, some m⟩) = 0 ∧
    query_agent req ⟨ms, some m⟩ = .httpError 500 ("Agent execution failed: " ++ m) := by
  have hs : stream_agent_progress ⟨ms, some m⟩ =
      [startingEvent, processingEvent] ++ eventsBeforeResult ms ++ [errorEvent m] := by
    rw [stream_agent_progress_eq]
    unfold terminalFrames
    simp [h]
  have hz := countType_nonterminal_zero (eventsBeforeResult ms) (eventsBeforeResult_type ms)
  refine ⟨hs, ?_, ?_, ?_⟩
  · rw [hs, countType_append, countType_append, hz.2]
    simp [countType, startingEvent, processingEvent, errorEvent]
  · rw [hs, countType_append, countType_append, hz.1]
    simp [countType, startingEvent, processingEvent, errorEvent]
  · rw [query_agent_eq]
    simp [h]

/-- Claim C6, counterexample: blocking mode does not pass the failure
message through verbatim — the 500 detail is prefixed with
"Agent execution failed: ". -/
theorem c6_counterexample :
    query_agent ⟨"rates for USD/EUR", 20⟩ ⟨[], some "timeout"⟩ =
      .httpError 500 "Agent execution failed: timeout" ∧
    "Agent execution failed: timeout" ≠ "timeout" := by
  exact ⟨rfl, by decide⟩

/-- Claim C6 as amended: the streaming error frame carries the failure
message verbatim in its `error` field, but the blocking 500 detail is the
message prefixed with "Agent execution failed: "; a producer raising
ConnectionError("timeout") before any message yields exactly the two
startup progress frames followed by one error frame with error "timeout". -/
theorem c6_error_text_amended (ms : List AgentMessage) (m : String)
    (req : QueryRequest) (h : ms.any isResult = false) :
    stream_agent_progress ⟨ms, some m⟩ =
      [startingEvent, processingEvent] ++ eventsBeforeResult ms ++ [errorEvent m] ∧
    eventErrorText (errorEvent m) = some m ∧
    query_agent req ⟨ms, some m⟩ = .httpError 500 ("Agent execution failed: " ++ m) ∧
    stream_agent_progress ⟨[], some "timeout"⟩ =
      [startingEvent, processingEvent, errorEvent "timeout"] := by
  refine ⟨?_, rfl, ?_, rfl⟩
  · rw [stream_agent_progress_eq]
    unfold terminalFrames
    simp [h]
  · rw [query_agent_eq]
    simp [h]

/-- Claim C6 witness. -/
theorem c6_error_text_amended_witness :
    [AgentMessage.assistant [.textBlock "EUR=0.92"]].any isResult = false ∧
    (stream_agent_progress ⟨[.assistant [.textBlock "EUR=0.92"]], some "boom"⟩ =
      [startingEvent, processingEvent] ++
        eventsBeforeResult [.assistant [.textBlock "EUR=0.92"]] ++ [errorEvent "boom"] ∧
    eventErrorText (errorEvent "boom") = some "boom" ∧
    query_agent ⟨"rates", 20⟩ ⟨[.assistant [.textBlock "EUR=0.92"]], some "boom"⟩ =
      .httpError 500 ("Agent execution failed: " ++ "boom") ∧
    stream_agent_progress ⟨[], some "timeout"⟩ =
      [startingEvent, processingEvent, errorEvent "timeout"]) :=
  ⟨by decide,
    c6_error_text_amended [.assistant [.textBlock "EUR=0.92"]] "boom" ⟨"rates", 20⟩ (by decide)⟩

/-- Claim C2 witness. -/
theorem c2_failure_single_error_witness :
    [AgentMessage.assistant [.textBlock "a", .toolUseBlock "WebSearch" [("query", "usd")]]].any
        isResult = false ∧
    (stream_agent_progress
        ⟨[.assistant [.textBlock "a", .toolUseBlock "WebSearch" [("query", "usd")]]], some "down"⟩ =
      [startingEvent, processingEvent] ++
        eventsBeforeResult
          [.assistant [.textBlock "a", .toolUseBlock "WebSearch" [("query", "usd")]]] ++
        [errorEvent "down"] ∧
    countType "error"
        (stream_agent_progress
          ⟨[.assistant [.textBlock "a", .toolUseBlock "WebSearch" [("query", "usd")]]],
            some "down"⟩) = 1 ∧
    countType "complete"
        (stream_agent_progress
          ⟨[.assistant [.textBlock "a", .toolUseBlock "WebSearch" [("query", "usd")]]],
            some "down"⟩) = 0 ∧
    query_agent ⟨"rates", 20⟩
        ⟨[.assistant [.textBlock "a", .toolUseBlock "WebSearch" [("query", "usd")]]],
          some "down"⟩ =
      .httpError 500 ("Agent execution failed: " ++ "down")) :=
  ⟨by decide,
    c2_failure_single_error
      [.assistant [.textBlock "a", .toolUseBlock "WebSearch" [("query", "usd")]]] "down"
      ⟨"rates", 20⟩ (by decide)⟩

/-- Claim C5, counterexample: a body with an empty prompt and max_turns 0
passes QueryRequest validation, is not rejected, and reaches the handlers
(and hence the producer) on both /query and /stream. -/
theorem c5_counterexample :
    parseQueryRequest (some "") (some 0) = some ⟨"", 0⟩ ∧
    isValidationFailed (post_query (some "") (some 0) ⟨[], none⟩) = false ∧
    isValidationFailed (post_stream (some "") (some 0) ⟨[], none⟩) = false ∧
    post_query (some "") (some 0) ⟨[], none⟩ = .ok (query_agent ⟨"", 0⟩ ⟨[], none⟩) ∧
    post_stream (some "") (some 0) ⟨[], none⟩ = .ok (stream_agent_progress ⟨[], none⟩) := by
  exact ⟨rfl, rfl, rfl, rfl, rfl⟩

/-- Claim C5 as amended: QueryRequest performs only presence/type
validation, so a present prompt of any string value — including the empty
string — together with any integer max_turns — including non-positive
values — validates successfully and the handler (and hence the producer) is
invoked on both /query and /stream; only a body missing the prompt field is
rejected with a 422 before the producer is invoked. -/
theorem c5_validation_presence_only (s : String) (n : Int) (t : Option Int) (p : Producer) :
    parseQueryRequest (some s) (some n) = some ⟨s, n⟩ ∧
    post_query (some s) (some n) p = .ok (query_agent ⟨s, n⟩ p) ∧
    post_stream (some s) (some n) p = .ok (stream_agent_progress p) ∧
    parseQueryRequest none t = none ∧
    post_query none t p = .validationFailed 422 ∧
    post_stream none t p = .validationFailed 422 := by
  exact ⟨rfl, rfl, rfl, rfl, rfl, rfl⟩

/-- Claim C10, counterexample: a producer that raises after yielding a
ResultMessage never surfaces the failure in blocking mode — the loop breaks
at the ResultMessage, so the client receives a success body carrying usage
data, not a 500 with only the error detail. -/
theorem c10_counterexample :
    query_agent ⟨"rates for USD/EUR", 20⟩
        ⟨[.result 1200 (1/100) 1 "abc"], some "boom"⟩ =
      .success ⟨"success", "No response received", some ⟨1200, 1/100, 1, "abc"⟩, agentInfo⟩ ∧
    isHttpError
        (query_agent ⟨"rates for USD/EUR", 20⟩
          ⟨[.result 1200 (1/100) 1 "abc"], some "boom"⟩) = false := by
  exact ⟨rfl, rfl⟩

/-- Claim C10 as amended: in blocking mode, for every producer sequence
that raises after yielding Text blocks but before any ResultMessage, the
outcome is exactly the 500 HTTPException carrying only the detail string —
the accumulated fragments and any usage are discarded; a raise positioned
after a ResultMessage is never observed, since consumption stopped at the
ResultMessage. -/
theorem c10_blocking_discards_partial (ms : List AgentMessage) (m : String)
    (req : QueryRequest) (h1 : ms.any isResult = false)
    (h2 : textsBeforeResult ms ≠ []) :
    query_agent req ⟨ms, some m⟩ = .httpError 500 ("Agent execution failed: " ++ m) := by
  rw [query_agent_eq]
  simp [h1]

/-- Claim C10 witness. -/
theorem c10_blocking_discards_partial_witness :
    [AgentMessage.assistant [.textBlock "EUR=0.92"]].any isResult = false ∧
    textsBeforeResult [AgentMessage.assistant [.textBlock "EUR=0.92"]] ≠ [] ∧
    query_agent ⟨"rates", 20⟩ ⟨[.assistant [.textBlock "EUR=0.92"]], some "boom"⟩ =
      .httpError 500 ("Agent execution failed: " ++ "boom") :=
  ⟨by decide, by decide,
    c10_blocking_discards_partial [.assistant [.textBlock "EUR=0.92"]] "boom"
      ⟨"rates", 20⟩ (by decide) (by decide)⟩

/-- Claim C7: the first ResultMessage yields no frame of its own; its four
fields become the usage of the terminal frame and of the blocking body;
consumption stops at it, so any later elements and even a later producer
failure never affect any output; and a run that never yields a
ResultMessage ends with the empty usage mapping (modelled as `none`). -/
theorem c7_result_early_stop (pre post : List AgentMessage) (d : Int) (c : Rat)
    (n : Int) (s : String) (f1 f2 : Option String) (req : QueryRequest)
    (ms : List AgentMessage)
    (h : pre.any isResult = false) (hms : ms.any isResult = false) :
    stream_agent_progress ⟨pre ++ .result d c n s :: post, f1⟩ =
      stream_agent_progress ⟨pre ++ [.result d c n s], f2⟩ ∧
    stream_agent_progress ⟨pre ++ .result d c n s :: post, f1⟩ =
      [startingEvent, processingEvent] ++ eventsBeforeResult pre ++
        [completeEvent (textsBeforeResult pre) (some ⟨d, c, n, s⟩)] ∧
    query_agent req ⟨pre ++ .result d c n s :: post, f1⟩ =
      .success ⟨"success", joinResponse (textsBeforeResult pre), some ⟨d, c, n, s⟩, agentInfo⟩ ∧
    stream_agent_progress ⟨ms, none⟩ =
      [startingEvent, processingEvent] ++ eventsBeforeResult ms ++
        [completeEvent (textsBeforeResult ms) none] ∧
    query_agent req ⟨ms, none⟩ =
      .success ⟨"success", joinResponse (textsBeforeResult ms), none, agentInfo⟩ := by
  have hany : ∀ post' : List AgentMessage,
      (pre ++ .result d c n s :: post').any isResult = true := by
    intro post'
    rw [List.any_append]
    simp [isResult]
  have htexts : ∀ post' : List AgentMessage,
      textsBeforeResult (pre ++ .result d c n s :: post') = textsBeforeResult pre := by
    intro post'
    rw [textsBeforeResult_append pre _ h]
    simp [textsBeforeResult]
  have hevents : ∀ post' : List AgentMessage,
      eventsBeforeResult (pre ++ .result d c n s :: post') = eventsBeforeResult pre := by
    intro post'
    rw [eventsBeforeResult_append pre _ h]
    simp [eventsBeforeResult]
  have husage : ∀ post' : List AgentMessage,
      firstUsage (pre ++ .result d c n s :: post') = some ⟨d, c, n, s⟩ := by
    intro post'
    rw [firstUsage_append pre _ h]
    rfl
  have hstream : ∀ post' : List AgentMessage, ∀ f : Option String,
      stream_agent_progress ⟨pre ++ .result d c n s :: post', f⟩ =
        [startingEvent, processingEvent] ++ eventsBeforeResult pre ++
          [completeEvent (textsBeforeResult pre) (some ⟨d, c, n, s⟩)] := by
    intro post' f
    rw [stream_agent_progress_eq]
    unfold terminalFrames
    simp only [hany post', if_true, htexts post', hevents post', husage post']
  have hmu := firstUsage_eq_none ms hms
  refine ⟨?_, hstream post f1, ?_, ?_, ?_⟩
  · rw [hstream post f1]
    have := hstream ([] : List AgentMessage) f2
    simpa using this.symm
  · rw [query_agent_eq]
    simp only [hany post, if_true, htexts post, husage post]
  · rw [stream_agent_progress_eq]
    unfold terminalFrames
    simp [hms, hmu]
  · rw [query_agent_eq]
    simp [hms, hmu]

/-- Claim C7 witness. -/
theorem c7_result_early_stop_witness :
    [AgentMessage.assistant [.textBlock "EUR=0.92"]].any isResult = false ∧
    [AgentMessage.assistant [.toolUseBlock "WebSearch" [("query", "usd")]]].any
        isResult = false ∧
    (stream_agent_progress
        ⟨[.assistant [.textBlock "EUR=0.92"]] ++
            .result 1200 (1/100) 1 "abc" :: [.assistant [.textBlock "late"]], some "boom"⟩ =
      stream_agent_progress
        ⟨[.assistant [.textBlock "EUR=0.92"]] ++ [.result 1200 (1/100) 1 "abc"], none⟩ ∧
    stream_agent_progress
        ⟨[.assistant [.textBlock "EUR=0.92"]] ++
            .result 1200 (1/100) 1 "abc" :: [.assistant [.textBlock "late"]], some "boom"⟩ =
      [startingEvent, processingEvent] ++
        eventsBeforeResult [.assistant [.textBlock "EUR=0.92"]] ++
        [completeEvent (textsBeforeResult [.assistant [.textBlock "EUR=0.92"]])
          (some ⟨1200, 1/100, 1, "abc"⟩)] ∧
    query_agent ⟨"rates", 20⟩
        ⟨[.assistant [.textBlock "EUR=0.92"]] ++
            .result 1200 (1/100) 1 "abc" :: [.assistant [.textBlock "late"]], some "boom"⟩ =
      .success ⟨"success",
        joinResponse (textsBeforeResult [.assistant [.textBlock "EUR=0.92"]]),
        some ⟨1200, 1/100, 1, "abc"⟩, agentInfo⟩ ∧
    stream_agent_progress
        ⟨[.assistant [.toolUseBlock "WebSearch" [("query", "usd")]]], none⟩ =
      [startingEvent, processingEvent] ++
        eventsBeforeResult [.assistant [.toolUseBlock "WebSearch" [("query", "usd")]]] ++
        [completeEvent
          (textsBeforeResult [.assistant [.toolUseBlock "WebSearch" [("query", "usd")]]])
          none] ∧
    query_agent ⟨"rates", 20⟩
        ⟨[.assistant [.toolUseBlock "WebSearch" [("query", "usd")]]], none⟩ =
      .success ⟨"success",
        joinResponse
          (textsBeforeResult [.assistant [.toolUseBlock "WebSearch" [("query", "usd")]]]),
        none, agentInfo⟩) :=
  ⟨by decide, by decide,
    c7_result_early_stop [.assistant [.textBlock "EUR=0.92"]]
      [.assistant [.textBlock "late"]] 1200 (1/100) 1 "abc" (some "boom") none
      ⟨"rates", 20⟩ [.assistant [.toolUseBlock "WebSearch" [("query", "usd")]]]
      (by decide) (by decide)⟩

/-- Claim C9: a producer run with zero Text blocks that ends normally or
via a ResultMessage produces the fixed placeholder "No response received"
as the final response string in both modes, never the empty string. -/
theorem c9_placeholder_response (ms : List AgentMessage) (f : Option String)
    (req : QueryRequest)
    (h1 : ms.all (fun m => (msgTexts m).isEmpty) = true)
    (h2 : f = none ∨ ms.any isResult = true) :
    (stream_agent_progress ⟨ms, f⟩).getLast?.bind eventResponse =
      some "No response received" ∧
    queryResponseOf (query_agent req ⟨ms, f⟩) = some "No response received" ∧
    "No response received" ≠ "" := by
  have htexts := textsBeforeResult_eq_nil ms h1
  have hterm : terminalFrames ⟨ms, f⟩ =
      [completeEvent [] (firstUsage ms)] := by
    unfold terminalFrames
    by_cases hr : ms.any isResult = true
    · simp [hr, htexts]
    · rcases h2 with h2 | h2
      · simp [hr, h2, htexts]
      · exact absurd h2 hr
  have hq : query_agent req ⟨ms, f⟩ =
      .success ⟨"success", joinResponse [], firstUsage ms, agentInfo⟩ := by
    rw [query_agent_eq]
    by_cases hr : ms.any isResult = true
    · simp [hr, htexts]
    · rcases h2 with h2 | h2
      · simp [hr, h2, htexts]
      · exact absurd h2 hr
  refine ⟨?_, ?_, by decide⟩
  · rw [stream_agent_progress_eq]
    show (([startingEvent, processingEvent] ++ eventsBeforeResult ms) ++
        terminalFrames ⟨ms, f⟩).getLast?.bind eventResponse = _
    rw [hterm, List.getLast?_concat]
    rfl
  · rw [hq]
    rfl

/-- Claim C9 witness. -/
theorem c9_placeholder_response_witness :
    [AgentMessage.assistant [.toolUseBlock "WebSearch" [("query", "usd")]],
        AgentMessage.otherMessage].all (fun m => (msgTexts m).isEmpty) = true ∧
    ((none : Option String) = none ∨
      [AgentMessage.assistant [.toolUseBlock "WebSearch" [("query", "usd")]],
        AgentMessage.otherMessage].any isResult = true) ∧
    ((stream_agent_progress
        ⟨[.assistant [.toolUseBlock "WebSearch" [("query", "usd")]], .otherMessage],
          none⟩).getLast?.bind eventResponse = some "No response received" ∧
    queryResponseOf
        (query_agent ⟨"rates", 20⟩
          ⟨[.assistant [.toolUseBlock "WebSearch" [("query", "usd")]], .otherMessage],
            none⟩) = some "No response received" ∧
    "No response received" ≠ "") :=
  ⟨by decide, by decide,
    c9_placeholder_response
      [.assistant [.toolUseBlock "WebSearch" [("query", "usd")]], .otherMessage]
      none ⟨"rates", 20⟩ (by decide) (by decide)⟩

/-- Claim C1: for a producer sequence of all-Text AssistantMessages (with
at least one Text block overall) followed by a ResultMessage, the final
response — in the streaming complete frame and in the blocking success
body — is the newline-join of all Text contents in arrival order, and
exactly one complete frame is emitted. -/
theorem c1_joined_response (ms : List AgentMessage) (d : Int) (c : Rat) (n : Int)
    (s : String) (f : Option String) (req : QueryRequest)
    (h1 : ms.all onlyTextAssistant = true)
    (h2 : textsBeforeResult ms ≠ []) :
    stream_agent_progress ⟨ms ++ [.result d c n s], f⟩ =
      [startingEvent, processingEvent] ++ (textsBeforeResult ms).map respEvent ++
        [completeEvent (textsBeforeResult ms) (some ⟨d, c, n, s⟩)] ∧
    eventResponse (completeEvent (textsBeforeResult ms) (some ⟨d, c, n, s⟩)) =
      some (String.intercalate "\n" (textsBeforeResult ms)) ∧
    countType "complete" (stream_agent_progress ⟨ms ++ [.result d c n s], f⟩) = 1 ∧
    query_agent req ⟨ms ++ [.result d c n s], f⟩ =
      .success ⟨"success", String.intercalate "\n" (textsBeforeResult ms),
        some ⟨d, c, n, s⟩, agentInfo⟩ := by
  obtain ⟨hnr, hev⟩ := onlyText_events ms h1
  have hany : (ms ++ [AgentMessage.result d c n s]).any isResult = true := by
    rw [List.any_append]
    simp [isResult]
  have htexts : textsBeforeResult (ms ++ [AgentMessage.result d c n s]) =
      textsBeforeResult ms := by
    rw [textsBeforeResult_append ms _ hnr]
    simp [textsBeforeResult]
  have hevents : eventsBeforeResult (ms ++ [AgentMessage.result d c n s]) =
      (textsBeforeResult ms).map respEvent := by
    rw [eventsBeforeResult_append ms _ hnr, ← hev]
    simp [eventsBeforeResult]
  have husage : firstUsage (ms ++ [AgentMessage.result d c n s]) =
      some ⟨d, c, n, s⟩ := by
    rw [firstUsage_append ms _ hnr]
    rfl
  have hjoin := joinResponse_of_ne_nil (textsBeforeResult ms) h2
  have hstream : stream_agent_progress ⟨ms ++ [.result d c n s], f⟩ =
      [startingEvent, processingEvent] ++ (textsBeforeResult ms).map respEvent ++
        [completeEvent (textsBeforeResult ms) (some ⟨d, c, n, s⟩)] := by
    rw [stream_agent_progress_eq]
    unfold terminalFrames
    simp only [hany, if_true, htexts, hevents, husage]
  refine ⟨hstream, ?_, ?_, ?_⟩
  · simp [eventResponse, completeEvent, hjoin]
  · rw [hstream, countType_append, countType_append]
    have hz : countType "complete" ((textsBeforeResult ms).map respEvent) = 0 := by
      refine countType_eq_zero _ _ (fun e he => ?_)
      rw [List.mem_map] at he
      obtain ⟨t, _, rfl⟩ := he
      simp [respEvent]
    rw [hz]
    simp [countType, startingEvent, processingEvent, completeEvent]
  · rw [query_agent_eq]
    simp only [hany, if_true, htexts, husage, hjoin]

/-- Claim C1 witness. -/
theorem c1_joined_response_witness :
    [AgentMessage.assistant [.textBlock "EUR=0.92"],
        AgentMessage.assistant [.textBlock "GBP=0.79"]].all onlyTextAssistant = true ∧
    textsBeforeResult
        [AgentMessage.assistant [.textBlock "EUR=0.92"],
          AgentMessage.assistant [.textBlock "GBP=0.79"]] ≠ [] ∧
    (stream_agent_progress
        ⟨[AgentMessage.assistant [.textBlock "EUR=0.92"],
            AgentMessage.assistant [.textBlock "GBP=0.79"]] ++
          [.result 1200 (1/100) 1 "abc"], none⟩ =
      [startingEvent, processingEvent] ++
        (textsBeforeResult
          [AgentMessage.assistant [.textBlock "EUR=0.92"],
            AgentMessage.assistant [.textBlock "GBP=0.79"]]).map respEvent ++
        [completeEvent
          (textsBeforeResult
            [AgentMessage.assistant [.textBlock "EUR=0.92"],
              AgentMessage.assistant [.textBlock "GBP=0.79"]])
          (some ⟨1200, 1/100, 1, "abc"⟩)] ∧
    eventResponse
        (completeEvent
          (textsBeforeResult
            [AgentMessage.assistant [.textBlock "EUR=0.92"],
              AgentMessage.assistant [.textBlock "GBP=0.79"]])
          (some ⟨1200, 1/100, 1, "abc"⟩)) =
      some (String.intercalate "\n"
        (textsBeforeResult
          [AgentMessage.assistant [.textBlock "EUR=0.92"],
            AgentMessage.assistant [.textBlock "GBP=0.79"]])) ∧
    countType "complete"
        (stream_agent_progress
          ⟨[AgentMessage.assistant [.textBlock "EUR=0.92"],
              AgentMessage.assistant [.textBlock "GBP=0.79"]] ++
            [.result 1200 (1/100) 1 "abc"], none⟩) = 1 ∧
    query_agent ⟨"rates for USD/EUR", 20⟩
        ⟨[AgentMessage.assistant [.textBlock "EUR=0.92"],
            AgentMessage.assistant [.textBlock "GBP=0.79"]] ++
          [.result 1200 (1/100) 1 "abc"], none⟩ =
      .success ⟨"success",
        String.intercalate "\n"
          (textsBeforeResult
            [AgentMessage.assistant [.textBlock "EUR=0.92"],
              AgentMessage.assistant [.textBlock "GBP=0.79"]]),
        some ⟨1200, 1/100, 1, "abc"⟩, agentInfo⟩) :=
  ⟨by decide, by decide,
    c1_joined_response
      [AgentMessage.assistant [.textBlock "EUR=0.92"],
        AgentMessage.assistant [.textBlock "GBP=0.79"]]
      1200 (1/100) 1 "abc" none ⟨"rates for USD/EUR", 20⟩ (by decide) (by decide)⟩

/-- Claim C4: on every non-failing producer run, the streaming terminal
complete frame and the blocking success body agree on the joined response
text and on the usage mapping. -/
theorem c4_modes_agree (req : QueryRequest) (p : Producer) (h : nonFailing p) :
    (stream_agent_progress p).getLast?.bind eventResponse =
      queryResponseOf (query_agent req p) ∧
    (stream_agent_progress p).getLast?.bind eventUsage =
      queryUsageOf (query_agent req p) ∧
    ((stream_agent_progress p).getLast?.bind eventResponse).isSome = true := by
  have hterm : terminalFrames p =
      [completeEvent (textsBeforeResult p.msgs) (firstUsage p.msgs)] := by
    unfold terminalFrames
    by_cases hr : p.msgs.any isResult = true
    · simp [hr]
    · rcases h with h | h
      · simp [hr, h]
      · exact absurd h hr
  have hq : query_agent req p =
      .success ⟨"success", joinResponse (textsBeforeResult p.msgs),
        firstUsage p.msgs, agentInfo⟩ := by
    rw [query_agent_eq]
    by_cases hr : p.msgs.any isResult = true
    · simp [hr]
    · rcases h with h | h
      · simp [hr, h]
      · exact absurd h hr
  have hlast : (stream_agent_progress p).getLast? =
      some (completeEvent (textsBeforeResult p.msgs) (firstUsage p.msgs)) := by
    rw [stream_agent_progress_eq, hterm]
    show (([startingEvent, processingEvent] ++ eventsBeforeResult p.msgs) ++
        [completeEvent (textsBeforeResult p.msgs) (firstUsage p.msgs)]).getLast? = _
    rw [List.getLast?_concat]
  rw [hlast, hq]
  exact ⟨rfl, rfl, rfl⟩

/-- Claim C4 witness. -/
theorem c4_modes_agree_witness :
    nonFailing ⟨[.assistant [.textBlock "EUR=0.92"], .result 1200 (1/100) 1 "abc"], none⟩ ∧
    ((stream_agent_progress
        ⟨[.assistant [.textBlock "EUR=0.92"], .result 1200 (1/100) 1 "abc"],
          none⟩).getLast?.bind eventResponse =
      queryResponseOf
        (query_agent ⟨"rates", 20⟩
          ⟨[.assistant [.textBlock "EUR=0.92"], .result 1200 (1/100) 1 "abc"], none⟩) ∧
    (stream_agent_progress
        ⟨[.assistant [.textBlock "EUR=0.92"], .result 1200 (1/100) 1 "abc"],
          none⟩).getLast?.bind eventUsage =
      queryUsageOf
        (query_agent ⟨"rates", 20⟩
          ⟨[.assistant [.textBlock "EUR=0.92"], .result 1200 (1/100) 1 "abc"], none⟩) ∧
    ((stream_agent_progress
        ⟨[.assistant [.textBlock "EUR=0.92"], .result 1200 (1/100) 1 "abc"],
          none⟩).getLast?.bind eventResponse).isSome = true) :=
  ⟨by decide,
    c4_modes_agree ⟨"rates", 20⟩
      ⟨[.assistant [.textBlock "EUR=0.92"], .result 1200 (1/100) 1 "abc"], none⟩
      (by decide)⟩

end CurrencyAgent
